import Mathlib

/-!
Shallow embedding of `goscrape` (`src/scrape.go`), a client for the UDP
tracker scrape extension of BEP-0015, together with theorems checking the
natural-language specification against the code.

Modelling conventions:
* Bytes are `Nat` values; byte buffers are `List Nat`.  Big-endian encoding
  and decoding follow `encoding/binary` (`u32be`, `u64be`, `beU32`, `beU64`).
* The network is an oracle: a dial success flag plus, for each loop
  iteration of the request/response exchange, one `Attempt` describing the
  outcome of the write and of the read of that iteration.  Every network
  syscall performed is recorded in an `IOEvent` trace.
* `time.Since(g.session)` is represented by the field `sessionAge`, the age
  of the cached session in nanoseconds at the moment of the call.
* Go errors become constructors of `GoError`; transport-level errors that
  the code propagates unchanged are `dialErr`, `writeErr`, `readErr`, and
  the error from `hex.Decode` is `hexErr`.
-/

/-- Protocol id magic constant (`pid` in the source). -/
def pid : Nat := 0x41727101980

/-- Action code for connect. -/
def actionConnect : Nat := 0

/-- Action code for announce. -/
def actionAnnounce : Nat := 1

/-- Action code for scrape (`actionScrap` in the source). -/
def actionScrap : Nat := 2

/-- Action code for a tracker-side error. -/
def actionError : Nat := 3

/-- `time.Minute` in nanoseconds, the staleness threshold of the session. -/
def minuteNs : Nat := 60000000000

/-- The Go errors that can escape `connect` and `Scrape`.  Transport errors
(dial, write, read) are opaque in the source and stay opaque here. -/
inductive GoError where
  | tooManyInfohash       -- ErrTooManyInfohash
  | request               -- ErrRequest (short write)
  | response              -- ErrResponse (short reply)
  | invalidAction         -- ErrInvalidAction
  | invalidTransactionID  -- ErrInvalidTransactionID
  | remote                -- ErrRemote
  | retryLimit            -- ErrRetryLimit
  | dialErr               -- error returned by net.DialTimeout
  | writeErr              -- error returned by conn.Write
  | readErr               -- non-timeout error returned by conn.Read
  | hexErr                -- error returned by hex.Decode
  deriving DecidableEq, Repr

/-- One network syscall, for the I/O trace. -/
inductive IOEvent where
  | dial
  | write
  | read
  deriving DecidableEq, Repr

/-- Outcome of one `conn.Write` call in the oracle. -/
inductive WriteOutcome where
  | err                 -- Write returned a non-nil error
  | wrote (n : Nat)     -- Write returned n, nil
  deriving DecidableEq, Repr

/-- Outcome of one `conn.Read` call in the oracle. -/
inductive ReadOutcome where
  | timeout                       -- a net.Error with Timeout() true
  | err                           -- any other non-nil error
  | ok (n : Nat) (data : List Nat) -- Read returned n, nil; data is the datagram
  deriving DecidableEq, Repr

/-- One iteration of the write-then-read exchange loop. -/
structure Attempt where
  wo : WriteOutcome
  ro : ReadOutcome
  deriving DecidableEq, Repr

/-- The byte of `l` at index `i` (0 if out of range). -/
def byteAt (l : List Nat) (i : Nat) : Nat := l.getD i 0

/-- Big-endian `binary.BigEndian.Uint32` at offset `off`. -/
def beU32 (l : List Nat) (off : Nat) : Nat :=
  byteAt l off * 2 ^ 24 + byteAt l (off + 1) * 2 ^ 16 +
    byteAt l (off + 2) * 2 ^ 8 + byteAt l (off + 3)

/-- Big-endian `binary.BigEndian.Uint64` at offset `off`. -/
def beU64 (l : List Nat) (off : Nat) : Nat :=
  byteAt l off * 2 ^ 56 + byteAt l (off + 1) * 2 ^ 48 +
    byteAt l (off + 2) * 2 ^ 40 + byteAt l (off + 3) * 2 ^ 32 +
    byteAt l (off + 4) * 2 ^ 24 + byteAt l (off + 5) * 2 ^ 16 +
    byteAt l (off + 6) * 2 ^ 8 + byteAt l (off + 7)

/-- Big-endian `binary.BigEndian.PutUint32`. -/
def u32be (x : Nat) : List Nat :=
  [x / 2 ^ 24 % 256, x / 2 ^ 16 % 256, x / 2 ^ 8 % 256, x % 256]

/-- Big-endian `binary.BigEndian.PutUint64`. -/
def u64be (x : Nat) : List Nat :=
  [x / 2 ^ 56 % 256, x / 2 ^ 48 % 256, x / 2 ^ 40 % 256, x / 2 ^ 32 % 256,
   x / 2 ^ 24 % 256, x / 2 ^ 16 % 256, x / 2 ^ 8 % 256, x % 256]

/-- Write `l` into a zeroed buffer of length `len` (Go's `copy` into a
buffer freshly obtained from `make`): the first `min len l.length` bytes
come from `l`, the rest stay 0. -/
def padTrunc (len : Nat) (l : List Nat) : List Nat :=
  l.take len ++ List.replicate (len - l.length) 0

/-- One result of the `Scrape` method (struct `ScrapeResult`). -/
structure ScrapeResult where
  Infohash : List Char
  Seeders : Nat
  Leechers : Nat
  Completed : Nat
  deriving DecidableEq, Repr

/-- The mutable client state (struct `Goscrape`).  `sessionAge` stands for
`time.Since(g.session)` in nanoseconds at the moment of the call; a client
that never connected has a huge `sessionAge` (Go's zero `time.Time`). -/
structure Goscrape where
  connectionID : Nat
  sessionAge : Nat
  retries : Int
  deriving DecidableEq, Repr

/-- `SetRetryLimit` (source lines 88-90). -/
def SetRetryLimit (g : Goscrape) (retries : Int) : Goscrape :=
  { g with retries := retries }

/-- Go's `math/rand` `Int63`: the raw 64-bit generator output masked to
63 bits (`rngSource.Int63` returns `int64(rng.Uint64() & rngMask)`). -/
def randInt63 (u : Nat) : Nat := u % 2 ^ 63

/-- Go's `math/rand` `Int31`: `int32(Int63() >> 32)`. -/
def randInt31 (u : Nat) : Nat := randInt63 u / 2 ^ 32

/-- `transactionID` (source lines 92-94): `uint32(rand.Int31())`, with the
generator's raw output `u` made explicit. -/
def transactionID (u : Nat) : Nat := randInt31 u % 2 ^ 32

/-- Result of the write/read retry loop shared by `connect` (lines 119-147)
and `Scrape` (lines 205-234). -/
inductive LoopResult where
  | err (e : GoError)
  | done (n : Nat) (data : List Nat)
  | exhausted          -- the modelled oracle ran out of attempts
  deriving DecidableEq, Repr

/-- The write-then-read retry loop of the source (`for { retries++; ... }`):
`lim` is `g.retries`, `bufLen` the length of the outgoing packet, `k` the
value of the local `retries` counter at the current iteration (the source
increments it at the top of the loop, so the first iteration runs with
`k = 1`).  Returns the loop's outcome and the trace of syscalls made. -/
def exchangeLoop (lim : Int) (bufLen : Nat) (k : Nat) :
    List Attempt → LoopResult × List IOEvent
  | [] => (.exhausted, [])
  | a :: rest =>
    match a.wo with
    | .err => (.err .writeErr, [.write])
    | .wrote n =>
      if n ≠ bufLen then (.err .request, [.write])
      else
        match a.ro with
        | .timeout =>
          if (k : Int) > lim then (.err .retryLimit, [.write, .read])
          else
            let r := exchangeLoop lim bufLen (k + 1) rest
            (r.1, .write :: .read :: r.2)
        | .err => (.err .readErr, [.write, .read])
        | .ok n data => (.done n data, [.write, .read])

/-- Outcome of `connect`. -/
inductive ConnectResult where
  | err (e : GoError)
  | ok (connectionID : Nat)
  | exhausted
  deriving DecidableEq, Repr

/-- The 16-byte connect request (source lines 107-110). -/
def encodeConnectRequest (tid : Nat) : List Nat :=
  u64be pid ++ u32be actionConnect ++ u32be tid

/-- The handshake of `connect` once the transport is dialled: the retry
loop of source lines 119-147 followed by the response validation and
session installation of lines 149-161.  Returns the result, the updated
client state, and the trace of the loop (the dial event is added by
`connect` itself). -/
def connectExchange (g : Goscrape) (buf : List Nat) (attempts : List Attempt) :
    ConnectResult × Goscrape × List IOEvent :=
  match exchangeLoop g.retries buf.length 1 attempts with
  | (.exhausted, t) => (.exhausted, g, t)
  | (.err e, t) => (.err e, g, t)
  | (.done n data, t) =>
    -- the response is read into the same 16-byte buffer
    if n ≠ buf.length then (.err .response, g, t)
    else
      let buffer := padTrunc buf.length (data.take n)
      if beU32 buffer 0 ≠ actionConnect then (.err .invalidAction, g, t)
      -- source line 156: `if tid := binary.BigEndian.Uint32(buf[4:]);
      -- tid != tid` — the inner tid shadows the one that was sent, so
      -- this comparison is of a value with itself
      else if beU32 buffer 4 ≠ beU32 buffer 4 then
        (.err .invalidTransactionID, g, t)
      else
        (.ok (beU64 buffer 8),
         { g with connectionID := beU64 buffer 8, sessionAge := 0 }, t)

/-- `connect` (source lines 96-164).  `tid` is the value drawn by
`g.transactionID()`, `dialOk` tells whether `net.DialTimeout` succeeds,
`attempts` is the oracle for the retry loop.  Returns the result, the
updated client state, and the trace of network syscalls. -/
def connect (g : Goscrape) (tid : Nat) (dialOk : Bool)
    (attempts : List Attempt) : ConnectResult × Goscrape × List IOEvent :=
  if minuteNs < g.sessionAge then
    if dialOk = false then (.err .dialErr, g, [.dial])
    else
      let r := connectExchange g (encodeConnectRequest tid) attempts
      (r.1, r.2.1, .dial :: r.2.2)
  else (.ok g.connectionID, g, [])

/-- Value of one hex character (`encoding/hex` `fromHexChar`). -/
def hexDigit (c : Char) : Option Nat :=
  if '0' ≤ c ∧ c ≤ '9' then some (c.toNat - '0'.toNat)
  else if 'a' ≤ c ∧ c ≤ 'f' then some (c.toNat - 'a'.toNat + 10)
  else if 'A' ≤ c ∧ c ≤ 'F' then some (c.toNat - 'A'.toNat + 10)
  else none

/-- `hex.Decode` over the whole source, as used on source line 193: decodes
consecutive pairs of hex characters; `none` models the non-nil error it
returns on an invalid byte or an odd-length input (either way `Scrape`
propagates the error). -/
def hexDecode : List Char → Option (List Nat)
  | [] => some []
  | [_] => none
  | a :: b :: rest =>
    match hexDigit a, hexDigit b with
    | some ha, some hb => (hexDecode rest).map fun l => (ha * 16 + hb) :: l
    | _, _ => none

/-- The result-building loop of `Scrape` (source lines 254-265): record `i`
sits at offset `8 + 12*i` of the response; within it the three big-endian
u32 fields are Seeders, Completed, Leechers in that order. -/
def buildResults (infohash : List (List Char)) (response : List Nat) :
    List ScrapeResult :=
  (List.range infohash.length).map fun i =>
    { Infohash := infohash.getD i []
      Seeders := beU32 response (8 + 12 * i)
      Completed := beU32 response (8 + 12 * i + 4)
      Leechers := beU32 response (8 + 12 * i + 8) }

/-- Outcome of `Scrape`. -/
inductive ScrapeOutcome where
  | err (e : GoError)
  | ok (results : List ScrapeResult)
  | exhausted
  deriving DecidableEq, Repr

/-- The scrape request packet (source lines 182-200):
`buf := make([]byte, 16+20*N)`, with connection id, action scrape and
transaction id put at offsets 0, 8, 12, and the hex-decoded infohashes
copied in at offset 16 (`copy` pads with the buffer's zeroes or truncates,
exactly as `padTrunc` does). -/
def encodeScrapeRequest (connectionid tid : Nat) (dst : List Nat) (N : Nat) :
    List Nat :=
  u64be connectionid ++ u32be actionScrap ++ u32be tid ++ padTrunc (20 * N) dst

/-- The scrape response buffer after a read that returned `n` bytes of
datagram `data`: `response := make([]byte, 8+12*N)` is zeroed, the read
fills its first `n` bytes. -/
def scrapeResponseView (N n : Nat) (data : List Nat) : List Nat :=
  padTrunc (8 + 12 * N) (data.take n)

/-- The response validation and decoding of `Scrape` after the retry loop
(source lines 236-267). -/
def scrapeValidate (tid : Nat) (infohash : List (List Char)) (n : Nat)
    (data : List Nat) : ScrapeOutcome :=
  if n < 8 + 12 * infohash.length then .err .response
  else
    let response := scrapeResponseView infohash.length n data
    let action := beU32 response 0
    if beU32 response 4 ≠ tid then .err .invalidTransactionID
    else if action = actionError then .err .remote
    else if action ≠ actionScrap then .err .invalidAction
    else .ok (buildResults infohash response)

/-- `Scrape` (source lines 167-268).  `ctid` and `tid` are the values drawn
by `g.transactionID()` for the connect handshake and for the scrape request;
`dialOk` and `connAttempts` are the network oracle of the handshake,
`scrapeAttempts` the oracle of the scrape exchange.  Returns the outcome,
the updated client state, and the trace of network syscalls in order. -/
def Scrape (g : Goscrape) (ctid tid : Nat) (infohash : List (List Char))
    (dialOk : Bool) (connAttempts scrapeAttempts : List Attempt) :
    ScrapeOutcome × Goscrape × List IOEvent :=
  if infohash.length > 74 then (.err .tooManyInfohash, g, [])
  else
    match connect g ctid dialOk connAttempts with
    | (.err e, g', t) => (.err e, g', t)
    | (.exhausted, g', t) => (.exhausted, g', t)
    | (.ok connectionid, g', t) =>
      -- src := bytes.Join(infohash, []byte(""))
      match hexDecode infohash.flatten with
      | none => (.err .hexErr, g', t)
      | some dst =>
        let buf := encodeScrapeRequest connectionid tid dst infohash.length
        match exchangeLoop g'.retries buf.length 1 scrapeAttempts with
        | (.exhausted, t2) => (.exhausted, g', t ++ t2)
        | (.err e, t2) => (.err e, g', t ++ t2)
        | (.done n data, t2) => (scrapeValidate tid infohash n data, g', t ++ t2)

/-- Number of datagrams written in a trace. -/
def writeCount : List IOEvent → Nat
  | [] => 0
  | .write :: t => writeCount t + 1
  | _ :: t => writeCount t

/-- Number of loop iterations the source's retry loop runs before giving up
with `ErrRetryLimit` when every read times out, starting from counter value
`k` with limit `lim`. -/
def attemptsNeeded (lim : Int) (k : Nat) : Nat := max 1 (lim + 2 - k).toNat

/-! ### Basic lemmas about the embedding -/

lemma padTrunc_length (len : Nat) (l : List Nat) : (padTrunc len l).length = len := by
  simp only [padTrunc, List.length_append, List.length_take, List.length_replicate]
  omega

lemma encodeConnectRequest_length (tid : Nat) :
    (encodeConnectRequest tid).length = 16 := by
  simp [encodeConnectRequest, u64be, u32be]

lemma encodeScrapeRequest_length (connectionid tid : Nat) (dst : List Nat)
    (N : Nat) : (encodeScrapeRequest connectionid tid dst N).length = 16 + 20 * N := by
  simp [encodeScrapeRequest, u64be, u32be, padTrunc_length]
  omega

/-- On an all-timeout oracle that is long enough, the retry loop fails with
`ErrRetryLimit` after exactly `attemptsNeeded lim k` write/read pairs. -/
lemma exchangeLoop_all_timeout (lim : Int) (len : Nat) :
    ∀ (m k : Nat), 1 ≤ k → attemptsNeeded lim k ≤ m →
    exchangeLoop lim len k (List.replicate m ⟨.wrote len, .timeout⟩) =
      (.err .retryLimit,
       (List.replicate (attemptsNeeded lim k) [IOEvent.write, IOEvent.read]).flatten) := by
  intro m
  induction m with
  | zero =>
    intro k hk hm
    exfalso
    have h1 : 1 ≤ attemptsNeeded lim k := le_max_left 1 _
    omega
  | succ m ih =>
    intro k hk hm
    rw [List.replicate_succ]
    by_cases hkl : (k : Int) > lim
    · have hone : attemptsNeeded lim k = 1 := by
        unfold attemptsNeeded; omega
      simp [exchangeLoop, hkl, hone]
    · have hsucc : attemptsNeeded lim k = attemptsNeeded lim (k + 1) + 1 := by
        unfold attemptsNeeded; omega
      have hrec := ih (k + 1) (by omega) (by omega)
      simp [exchangeLoop, hkl, hrec, hsucc, List.replicate_succ]

lemma writeCount_flatten_replicate (c : Nat) :
    writeCount (List.replicate c [IOEvent.write, IOEvent.read]).flatten = c := by
  induction c with
  | zero => rfl
  | succ c ih => simp [List.replicate_succ, writeCount, ih]

/-! ### Claim theorems -/

/-- C8: every transaction ID produced by `transactionID` is below `2^31`:
it is `uint32(rand.Int31())` and `Int31` yields a non-negative 31-bit
value, so the most significant bit of the 32-bit ID is always zero. -/
theorem transactionID_lt_two_pow_31 (u : Nat) : transactionID u < 2 ^ 31 := by
  unfold transactionID randInt31 randInt63
  have h : u % 2 ^ 63 < 2 ^ 32 * 2 ^ 31 := by
    have := Nat.mod_lt u (show 0 < 2 ^ 63 by norm_num)
    omega
  calc (u % 2 ^ 63 / 2 ^ 32) % 2 ^ 32
      ≤ u % 2 ^ 63 / 2 ^ 32 := Nat.mod_le _ _
    _ < 2 ^ 31 := Nat.div_lt_of_lt_mul h

/-- C7: an infohash list with more than 74 entries makes `Scrape` fail with
`ErrTooManyInfohash`, with the client state untouched and an empty network
trace (no handshake, no datagram). -/
theorem scrape_too_many_infohash (g : Goscrape) (ctid tid : Nat)
    (infohash : List (List Char)) (dialOk : Bool) (cA sA : List Attempt)
    (h : infohash.length > 74) :
    Scrape g ctid tid infohash dialOk cA sA = (.err .tooManyInfohash, g, []) := by
  simp [Scrape, h]

/-- Witness for C7 at a concrete list of 75 infohashes. -/
theorem scrape_too_many_infohash_witness :
    Scrape ⟨0, 0, 3⟩ 0 0 (List.replicate 75 []) true [] [] =
      (.err .tooManyInfohash, ⟨0, 0, 3⟩, []) :=
  scrape_too_many_infohash _ _ _ _ _ _ _ (by simp)

/-- C2 (code bug): the source's handshake transaction check on line 156
shadows the sent transaction ID (`if tid := Uint32(buf[4:]); tid != tid`),
so it compares the echoed value with itself and never fires.  Concretely: a
stale client sends the connect request with transaction ID 5, the tracker
echoes transaction ID 99 with action connect and connection id 7, and the
handshake nevertheless succeeds and installs the session. -/
theorem connect_accepts_mismatched_tid :
    connect ⟨0, minuteNs + 1, 3⟩ 5 true
      [⟨.wrote 16, .ok 16 (u32be 0 ++ u32be 99 ++ u64be 7)⟩] =
      (.ok 7, ⟨7, 0, 3⟩, [.dial, .write, .read]) := by
  decide

/-- C4 (counterexample): at a session age of exactly 60 seconds the source
does not renew (`time.Since(g.session) > time.Minute` is strict): `connect`
returns the cached connection ID with an empty network trace even though the
dial would fail, contradicting the claim that an age of exactly 60 seconds
triggers a renewal handshake. -/
theorem connect_no_renewal_at_exactly_sixty_seconds :
    connect ⟨42, minuteNs, 3⟩ 5 false [] = (.ok 42, ⟨42, minuteNs, 3⟩, []) := by
  decide

/-- C4 (amended): the session manager renews exactly when the cached
session age is strictly greater than 60 seconds (a never-connected client
has a huge age and so also renews); at any age less than or equal to 60
seconds it returns the cached transport and connection ID with no network
I/O at all. -/
theorem connect_renewal_iff_stale (g : Goscrape) (tid : Nat) (dialOk : Bool)
    (atts : List Attempt) :
    (g.sessionAge ≤ minuteNs →
      connect g tid dialOk atts = (.ok g.connectionID, g, [])) ∧
    (minuteNs < g.sessionAge →
      ((connect g tid dialOk atts).2.2).head? = some .dial) := by
  constructor
  · intro h
    simp [connect, Nat.not_lt.mpr h]
  · intro h
    simp only [connect, if_pos h]
    split
    · rfl
    · rfl

/-- Witness for C4 (amended), fresh side: a 59-second-old session is reused
untouched even though any network operation would fail. -/
theorem connect_renewal_iff_stale_witness :
    connect ⟨42, 59000000000, 3⟩ 5 false [] = (.ok 42, ⟨42, 59000000000, 3⟩, []) :=
  (connect_renewal_iff_stale ⟨42, 59000000000, 3⟩ 5 false []).1 (by decide)

/-- Case analysis of the state returned by `connectExchange`: either the
client state is untouched, or the handshake succeeded and the connection ID
and session timestamp were installed together (retries untouched). -/
lemma connectExchange_state (g : Goscrape) (buf : List Nat)
    (atts : List Attempt) :
    (connectExchange g buf atts).2.1 = g ∨
    ∃ cid, (connectExchange g buf atts).1 = .ok cid ∧
      (connectExchange g buf atts).2.1 = ⟨cid, 0, g.retries⟩ := by
  simp only [connectExchange]
  split
  · left; rfl
  · left; rfl
  · split
    · left; rfl
    · split
      · left; rfl
      · split
        · left; rfl
        · right; exact ⟨_, rfl, rfl⟩

/-- C9: the cached connection ID and session timestamp are mutated only
together and only by a successful handshake.  On every failure path of
`connect` (dial error, write error, short write, retry exhaustion,
non-timeout read error, short response, wrong action) the client state is
exactly what it was before the call, so a failed handshake leaves the
manager stale; on success either the fresh cached session was reused
unchanged, or the new connection ID was installed together with a reset
session timestamp. -/
theorem connect_session_frame (g : Goscrape) (tid : Nat) (dialOk : Bool)
    (atts : List Attempt) :
    (∀ e, (connect g tid dialOk atts).1 = .err e →
      (connect g tid dialOk atts).2.1 = g) ∧
    ((connect g tid dialOk atts).1 = .exhausted →
      (connect g tid dialOk atts).2.1 = g) ∧
    (∀ cid, (connect g tid dialOk atts).1 = .ok cid →
      (connect g tid dialOk atts).2.1 = g ∨
      (connect g tid dialOk atts).2.1 = ⟨cid, 0, g.retries⟩) := by
  by_cases hs : minuteNs < g.sessionAge
  · by_cases hd : dialOk = false
    · simp [connect, hs, hd]
    · simp only [connect, if_pos hs, if_neg hd]
      rcases connectExchange_state g (encodeConnectRequest tid) atts with
        h | ⟨cid0, h1, h2⟩
      · exact ⟨fun _ _ => h, fun _ => h, fun _ _ => Or.inl h⟩
      · refine ⟨?_, ?_, ?_⟩
        · intro e he
          simp [h1] at he
        · intro he
          simp [h1] at he
        · intro cid hok
          rw [h1] at hok
          injection hok with hcid
          subst hcid
          exact Or.inr h2
  · simp [connect, hs]

/-- Witness for C9 at a concrete failure: the dial fails for a stale
client, and the state (connection ID 9, stale timestamp, retry limit 3) is
returned untouched. -/
theorem connect_session_frame_witness :
    (connect ⟨9, minuteNs + 5, 3⟩ 5 false []).2.1 = ⟨9, minuteNs + 5, 3⟩ :=
  (connect_session_frame ⟨9, minuteNs + 5, 3⟩ 5 false []).1 .dialErr (by decide)

/-- Reduction of `Scrape` to its exchange once the input size check, the
handshake, and the hex decoding have gone through. -/
lemma scrape_after_connect (g g' : Goscrape) (ctid tid cid : Nat)
    (infohash : List (List Char)) (dialOk : Bool) (cA sA : List Attempt)
    (tr : List IOEvent) (dst : List Nat)
    (hN : infohash.length ≤ 74)
    (hconn : connect g ctid dialOk cA = (.ok cid, g', tr))
    (hhex : hexDecode infohash.flatten = some dst) :
    Scrape g ctid tid infohash dialOk cA sA =
      (match exchangeLoop g'.retries (16 + 20 * infohash.length) 1 sA with
       | (.exhausted, t2) => (.exhausted, g', tr ++ t2)
       | (.err e, t2) => (.err e, g', tr ++ t2)
       | (.done n data, t2) => (scrapeValidate tid infohash n data, g', tr ++ t2)) := by
  have h74 : ¬ infohash.length > 74 := by omega
  simp only [Scrape, if_neg h74, hconn, hhex, encodeScrapeRequest_length]

lemma buildResults_length (infohash : List (List Char)) (resp : List Nat) :
    (buildResults infohash resp).length = infohash.length := by
  simp [buildResults]

lemma buildResults_getElem (infohash : List (List Char)) (resp : List Nat)
    (i : Nat) (hi : i < infohash.length) :
    (buildResults infohash resp)[i]? =
      some { Infohash := infohash.getD i []
             Seeders := beU32 resp (8 + 12 * i)
             Leechers := beU32 resp (8 + 12 * i + 8)
             Completed := beU32 resp (8 + 12 * i + 4) } := by
  simp [buildResults, List.getElem?_map, List.getElem?_range, hi]

/-- C1: whenever the handshake succeeds, the infohashes hex-decode, and the
tracker answers the scrape request with a well-formed response of `n ≥
8+12*N` bytes carrying the sent transaction ID and action scrape, `Scrape`
returns exactly `N` results; result `i` echoes the caller's `i`-th infohash
verbatim, and its `Seeders`, `Completed` and `Leechers` fields are the
three big-endian u32 fields, in that order, of the 12-byte record at byte
offset `8 + 12*i` of the response. -/
theorem scrape_success_results
    (g g' : Goscrape) (ctid tid cid : Nat) (infohash : List (List Char))
    (dialOk : Bool) (cA : List Attempt) (tr : List IOEvent)
    (dst data : List Nat) (n : Nat)
    (hN : infohash.length ≤ 74)
    (hconn : connect g ctid dialOk cA = (.ok cid, g', tr))
    (hhex : hexDecode infohash.flatten = some dst)
    (hn : 8 + 12 * infohash.length ≤ n)
    (htid : beU32 (scrapeResponseView infohash.length n data) 4 = tid)
    (hact : beU32 (scrapeResponseView infohash.length n data) 0 = actionScrap) :
    Scrape g ctid tid infohash dialOk cA
        [⟨.wrote (16 + 20 * infohash.length), .ok n data⟩] =
      (.ok (buildResults infohash (scrapeResponseView infohash.length n data)),
       g', tr ++ [.write, .read]) ∧
    (buildResults infohash (scrapeResponseView infohash.length n data)).length =
      infohash.length ∧
    ∀ i, i < infohash.length →
      (buildResults infohash (scrapeResponseView infohash.length n data))[i]? =
        some { Infohash := infohash.getD i []
               Seeders := beU32 (scrapeResponseView infohash.length n data) (8 + 12 * i)
               Leechers := beU32 (scrapeResponseView infohash.length n data) (8 + 12 * i + 8)
               Completed := beU32 (scrapeResponseView infohash.length n data) (8 + 12 * i + 4) } := by
  refine ⟨?_, buildResults_length _ _, fun i hi => buildResults_getElem _ _ i hi⟩
  rw [scrape_after_connect g g' ctid tid cid infohash dialOk cA _ tr dst hN hconn hhex]
  have hloop : exchangeLoop g'.retries (16 + 20 * infohash.length) 1
      [⟨.wrote (16 + 20 * infohash.length), .ok n data⟩] =
      (.done n data, [.write, .read]) := by
    simp [exchangeLoop]
  have hval : scrapeValidate tid infohash n data =
      .ok (buildResults infohash (scrapeResponseView infohash.length n data)) := by
    have hnn : ¬ n < 8 + 12 * infohash.length := by omega
    simp [scrapeValidate, hnn, htid, hact, actionScrap, actionError]
  simp [hloop, hval]

/-- Witness for C1: one infohash of forty `a` characters against a fresh
session and a tracker answering (seeders, completed, leechers) =
(10, 50, 2) with matching transaction ID 5. -/
theorem scrape_success_results_witness :
    Scrape ⟨7, 0, 3⟩ 9 5 [List.replicate 40 'a'] true []
        [⟨.wrote 36, .ok 20 (u32be 2 ++ u32be 5 ++ u32be 10 ++ u32be 50 ++ u32be 2)⟩] =
      (.ok [⟨List.replicate 40 'a', 10, 2, 50⟩], ⟨7, 0, 3⟩, [.write, .read]) := by
  have h := (scrape_success_results ⟨7, 0, 3⟩ ⟨7, 0, 3⟩ 9 5 7
    [List.replicate 40 'a'] true [] [] (List.replicate 20 170)
    (u32be 2 ++ u32be 5 ++ u32be 10 ++ u32be 50 ++ u32be 2) 20
    (by decide) (by decide) (by decide) (by decide) (by decide) (by decide)).1
  exact h.trans (by decide)

/-- C6: once a scrape response of sufficient length (`n ≥ 8+12*N`) is read,
validation proceeds in this order: a transaction ID differing from the one
just sent fails with `ErrInvalidTransactionID` (with no retry: the exchange
trace is a single write/read pair); with a matching transaction ID, action
error (3) fails with `ErrRemote`; any other action than scrape (2) fails
with `ErrInvalidAction`; a matching transaction ID with action scrape
yields the decoded results. -/
theorem scrape_response_validation
    (g g' : Goscrape) (ctid tid cid : Nat) (infohash : List (List Char))
    (dialOk : Bool) (cA : List Attempt) (tr : List IOEvent)
    (dst data : List Nat) (n : Nat)
    (hN : infohash.length ≤ 74)
    (hconn : connect g ctid dialOk cA = (.ok cid, g', tr))
    (hhex : hexDecode infohash.flatten = some dst)
    (hn : 8 + 12 * infohash.length ≤ n) :
    (beU32 (scrapeResponseView infohash.length n data) 4 ≠ tid →
      Scrape g ctid tid infohash dialOk cA
          [⟨.wrote (16 + 20 * infohash.length), .ok n data⟩] =
        (.err .invalidTransactionID, g', tr ++ [.write, .read])) ∧
    (beU32 (scrapeResponseView infohash.length n data) 4 = tid →
      beU32 (scrapeResponseView infohash.length n data) 0 = actionError →
      Scrape g ctid tid infohash dialOk cA
          [⟨.wrote (16 + 20 * infohash.length), .ok n data⟩] =
        (.err .remote, g', tr ++ [.write, .read])) ∧
    (beU32 (scrapeResponseView infohash.length n data) 4 = tid →
      beU32 (scrapeResponseView infohash.length n data) 0 ≠ actionError →
      beU32 (scrapeResponseView infohash.length n data) 0 ≠ actionScrap →
      Scrape g ctid tid infohash dialOk cA
          [⟨.wrote (16 + 20 * infohash.length), .ok n data⟩] =
        (.err .invalidAction, g', tr ++ [.write, .read])) ∧
    (beU32 (scrapeResponseView infohash.length n data) 4 = tid →
      beU32 (scrapeResponseView infohash.length n data) 0 = actionScrap →
      Scrape g ctid tid infohash dialOk cA
          [⟨.wrote (16 + 20 * infohash.length), .ok n data⟩] =
        (.ok (buildResults infohash (scrapeResponseView infohash.length n data)),
         g', tr ++ [.write, .read])) := by
  have hred : Scrape g ctid tid infohash dialOk cA
      [⟨.wrote (16 + 20 * infohash.length), .ok n data⟩] =
      (scrapeValidate tid infohash n data, g', tr ++ [.write, .read]) := by
    rw [scrape_after_connect g g' ctid tid cid infohash dialOk cA _ tr dst hN hconn hhex]
    simp [exchangeLoop]
  have hnn : ¬ n < 8 + 12 * infohash.length := by omega
  refine ⟨?_, ?_, ?_, ?_⟩
  · intro h1
    rw [hred]
    simp [scrapeValidate, hnn, h1]
  · intro h1 h2
    rw [hred]
    simp [scrapeValidate, hnn, h1, h2]
  · intro h1 h2 h3
    rw [hred]
    simp [scrapeValidate, hnn, h1, h2, h3]
  · intro h1 h2
    rw [hred]
    simp [scrapeValidate, hnn, h1, h2, actionScrap, actionError]

/-- Witness for C6 at the transaction-mismatch case: transaction ID 5 sent,
6 echoed; `Scrape` fails with `ErrInvalidTransactionID` after a single
write/read pair. -/
theorem scrape_response_validation_witness :
    Scrape ⟨7, 0, 3⟩ 9 5 [] true [] [⟨.wrote 16, .ok 8 (u32be 2 ++ u32be 6)⟩] =
      (.err .invalidTransactionID, ⟨7, 0, 3⟩, [.write, .read]) :=
  (scrape_response_validation ⟨7, 0, 3⟩ ⟨7, 0, 3⟩ 9 5 7 [] true [] [] []
    (u32be 2 ++ u32be 6) 8 (by decide) (by decide) (by decide) (by decide)).1
    (by decide)

/-- On an all-timeout scrape exchange that is long enough, `Scrape` fails
with `ErrRetryLimit` after exactly `attemptsNeeded g'.retries 1` write/read
pairs. -/
lemma scrape_all_timeout
    (g g' : Goscrape) (ctid tid cid : Nat) (infohash : List (List Char))
    (dialOk : Bool) (cA : List Attempt) (tr : List IOEvent) (dst : List Nat)
    (m : Nat)
    (hN : infohash.length ≤ 74)
    (hconn : connect g ctid dialOk cA = (.ok cid, g', tr))
    (hhex : hexDecode infohash.flatten = some dst)
    (hm : attemptsNeeded g'.retries 1 ≤ m) :
    Scrape g ctid tid infohash dialOk cA
        (List.replicate m ⟨.wrote (16 + 20 * infohash.length), .timeout⟩) =
      (.err .retryLimit, g',
       tr ++ (List.replicate (attemptsNeeded g'.retries 1)
         [IOEvent.write, IOEvent.read]).flatten) := by
  rw [scrape_after_connect g g' ctid tid cid infohash dialOk cA _ tr dst hN hconn hhex]
  rw [exchangeLoop_all_timeout g'.retries (16 + 20 * infohash.length) m 1
    (le_refl 1) hm]

/-- C5: with the default retry limit of 3 (set by `New`), a scrape exchange
whose reads all time out fails with `ErrRetryLimit` after exactly
`3 + 1 = 4` write attempts; a non-timeout read error, a write error, and a
short write are each returned at once, after a single loop iteration. -/
theorem scrape_retry_semantics
    (g g' : Goscrape) (ctid tid cid : Nat) (infohash : List (List Char))
    (dialOk : Bool) (cA : List Attempt) (tr : List IOEvent) (dst : List Nat)
    (hN : infohash.length ≤ 74)
    (hconn : connect g ctid dialOk cA = (.ok cid, g', tr))
    (hhex : hexDecode infohash.flatten = some dst)
    (hr : g'.retries = 3) :
    (∀ m, 4 ≤ m →
      Scrape g ctid tid infohash dialOk cA
          (List.replicate m ⟨.wrote (16 + 20 * infohash.length), .timeout⟩) =
        (.err .retryLimit, g',
         tr ++ (List.replicate 4 [IOEvent.write, IOEvent.read]).flatten)) ∧
    writeCount (List.replicate 4 [IOEvent.write, IOEvent.read]).flatten = 4 ∧
    (∀ rest, Scrape g ctid tid infohash dialOk cA
        (⟨.wrote (16 + 20 * infohash.length), .err⟩ :: rest) =
      (.err .readErr, g', tr ++ [.write, .read])) ∧
    (∀ ro rest, Scrape g ctid tid infohash dialOk cA (⟨.err, ro⟩ :: rest) =
      (.err .writeErr, g', tr ++ [.write])) ∧
    (∀ w, w ≠ 16 + 20 * infohash.length → ∀ ro rest,
      Scrape g ctid tid infohash dialOk cA (⟨.wrote w, ro⟩ :: rest) =
        (.err .request, g', tr ++ [.write])) := by
  have hneed : attemptsNeeded g'.retries 1 = 4 := by
    rw [hr]; decide
  refine ⟨?_, by decide, ?_, ?_, ?_⟩
  · intro m hm
    have h := scrape_all_timeout g g' ctid tid cid infohash dialOk cA tr dst m
      hN hconn hhex (by omega)
    rw [hneed] at h
    exact h
  · intro rest
    rw [scrape_after_connect g g' ctid tid cid infohash dialOk cA _ tr dst hN hconn hhex]
    simp [exchangeLoop]
  · intro ro rest
    rw [scrape_after_connect g g' ctid tid cid infohash dialOk cA _ tr dst hN hconn hhex]
    simp [exchangeLoop]
  · intro w hw ro rest
    rw [scrape_after_connect g g' ctid tid cid infohash dialOk cA _ tr dst hN hconn hhex]
    simp [exchangeLoop, hw]

/-- Witness for C5: a fresh client with the default limit 3 and an
all-timeout transport makes exactly four write attempts and fails with
`ErrRetryLimit`. -/
theorem scrape_retry_semantics_witness :
    Scrape ⟨7, 0, 3⟩ 9 5 [] true [] (List.replicate 4 ⟨.wrote 16, .timeout⟩) =
      (.err .retryLimit, ⟨7, 0, 3⟩,
       [.write, .read, .write, .read, .write, .read, .write, .read]) := by
  have h := (scrape_retry_semantics ⟨7, 0, 3⟩ ⟨7, 0, 3⟩ 9 5 7 [] true [] [] []
    (by decide) (by decide) (by decide) (by decide)).1 4 (le_refl 4)
  exact h.trans (by decide)

/-- C10: for every retry limit `n` installed with `SetRetryLimit`,
including non-positive ones, an all-timeout scrape exchange makes exactly
`max 1 (n+1)` write attempts before failing with `ErrRetryLimit`: at least
one full write-then-read attempt always happens. -/
theorem setRetryLimit_write_attempts
    (g : Goscrape) (n : Int) (ctid tid : Nat) (infohash : List (List Char))
    (dialOk : Bool) (cA : List Attempt) (dst : List Nat) (m : Nat)
    (hN : infohash.length ≤ 74)
    (hfresh : g.sessionAge ≤ minuteNs)
    (hhex : hexDecode infohash.flatten = some dst)
    (hm : max 1 (n + 1).toNat ≤ m) :
    Scrape (SetRetryLimit g n) ctid tid infohash dialOk cA
        (List.replicate m ⟨.wrote (16 + 20 * infohash.length), .timeout⟩) =
      (.err .retryLimit, SetRetryLimit g n,
       (List.replicate (max 1 (n + 1).toNat)
         [IOEvent.write, IOEvent.read]).flatten) ∧
    writeCount (List.replicate (max 1 (n + 1).toNat)
        [IOEvent.write, IOEvent.read]).flatten = max 1 (n + 1).toNat := by
  have hconn : connect (SetRetryLimit g n) ctid dialOk cA =
      (.ok g.connectionID, SetRetryLimit g n, []) := by
    simp [connect, SetRetryLimit, Nat.not_lt.mpr hfresh]
  have hneed : attemptsNeeded (SetRetryLimit g n).retries 1 = max 1 (n + 1).toNat := by
    simp only [SetRetryLimit, attemptsNeeded]
    omega
  refine ⟨?_, writeCount_flatten_replicate _⟩
  have h := scrape_all_timeout (SetRetryLimit g n) (SetRetryLimit g n) ctid tid
    g.connectionID infohash dialOk cA [] dst m hN hconn hhex (by omega)
  rw [hneed] at h
  simpa using h

/-- Witness for C10 at the degenerate limit `n = -7`: exactly one write
attempt happens before `ErrRetryLimit`. -/
theorem setRetryLimit_write_attempts_witness :
    Scrape (SetRetryLimit ⟨7, 0, 3⟩ (-7)) 9 5 [] true []
        (List.replicate 1 ⟨.wrote 16, .timeout⟩) =
      (.err .retryLimit, SetRetryLimit ⟨7, 0, 3⟩ (-7), [.write, .read]) := by
  have h := (setRetryLimit_write_attempts ⟨7, 0, 3⟩ (-7) 9 5 [] true [] [] 1
    (by decide) (by decide) (by decide) (by decide)).1
  exact h.trans (by decide)

/-- C3 (counterexample): a 38-character infohash — not a 40-character hex
string and not decoding to 20 bytes — is not rejected at all: with a stale
session the full handshake runs (dial, write, read) and the scrape succeeds,
returning a result for the malformed entry.  The source validates nothing
per entry: it only hex-decodes the concatenation of all entries, and only
after `connect`. -/
theorem scrape_malformed_infohash_not_rejected :
    Scrape ⟨0, minuteNs + 1, 3⟩ 9 5 [List.replicate 38 'a'] true
        [⟨.wrote 16, .ok 16 (u32be 0 ++ u32be 9 ++ u64be 7)⟩]
        [⟨.wrote 36, .ok 20 (u32be 2 ++ u32be 5 ++ u32be 10 ++ u32be 50 ++ u32be 2)⟩] =
      (.ok [⟨List.replicate 38 'a', 10, 2, 50⟩], ⟨7, 0, 3⟩,
       [.dial, .write, .read, .write, .read]) := by
  decide

/-- C3 (amended): the only malformed-infohash failure the code produces is
the `hex.Decode` error, raised when the concatenation of all infohashes
contains a non-hex character or has odd total length; it surfaces after the
connect handshake (which performs network I/O when the session is stale)
and before any scrape datagram is written — the final trace is exactly the
handshake's.  Individual infohashes of wrong length that concatenate to
valid even-length hex are not rejected. -/
theorem scrape_hex_error
    (g g' : Goscrape) (ctid tid cid : Nat) (infohash : List (List Char))
    (dialOk : Bool) (cA sA : List Attempt) (tr : List IOEvent)
    (hN : infohash.length ≤ 74)
    (hconn : connect g ctid dialOk cA = (.ok cid, g', tr))
    (hhex : hexDecode infohash.flatten = none) :
    Scrape g ctid tid infohash dialOk cA sA = (.err .hexErr, g', tr) := by
  have h74 : ¬ infohash.length > 74 := by omega
  simp only [Scrape, if_neg h74, hconn, hhex]

/-- Witness for C3 (amended): the non-hex infohash `"zz"` fails with the
hex-decode error after the handshake's dial/write/read and with no scrape
datagram written. -/
theorem scrape_hex_error_witness :
    Scrape ⟨0, minuteNs + 1, 3⟩ 9 5 [['z', 'z']] true
        [⟨.wrote 16, .ok 16 (u32be 0 ++ u32be 9 ++ u64be 7)⟩] [] =
      (.err .hexErr, ⟨7, 0, 3⟩, [.dial, .write, .read]) :=
  scrape_hex_error ⟨0, minuteNs + 1, 3⟩ ⟨7, 0, 3⟩ 9 5 7 [['z', 'z']] true
    [⟨.wrote 16, .ok 16 (u32be 0 ++ u32be 9 ++ u64be 7)⟩] [] [.dial, .write, .read]
    (by decide) (by decide) (by decide)
